import Mathlib

/-!
Shallow embedding of `src/src/plugins/blocklist-wrapper/main.js` (serverless-dns):
the build-coordination and multi-part asset-assembly protocol of the blocklist
wrapper.  The network is modelled as an oracle `net : String → FetchResponse`;
the external trie builder `createBlocklistFilter` (radixTrie.js, outside the
repository slice) is a parameter `cbf`; machine time is an explicit `Int`
argument.  Async calls are embedded as pure functions that also report the list
of fetch requests they issue.
-/

namespace ServerlessDns

/-- A transport response, as observed by `fileFetch`: `ok`/`status` mirror the
Fetch API response status fields, `body` the byte payload delivered by
`arrayBuffer()` (for the JSON kind the raw payload stands for the parsed
value, which the code treats opaquely). -/
structure FetchResponse where
  ok : Bool
  status : Nat
  body : List Nat
deriving DecidableEq, Repr

/-- Modelled from the spec: serialization of the transport response record in a
diagnostic message (the Response object is a Fetch API collaborator external to
this repository); the spec requires the status to be surfaced. -/
def stringifyResponse (res : FetchResponse) : String :=
  "\x7b\x22status\x22:" ++ toString res.status ++ "\x7d"

/-- The diagnostic message thrown by `fileFetch` on a non-success response:
JSON.stringify([url, res, "fileFetch fail"]). -/
def fetchFailMsg (url : String) (res : FetchResponse) : String :=
  "[\x22" ++ url ++ "\x22," ++ stringifyResponse res ++ ",\x22fileFetch fail\x22]"

/-- `fileFetch(url, typ)` of main.js: an unknown conversion kind throws before
any request is made; otherwise the request is issued and a non-ok response
throws the diagnostic message.  The first component records the requests
issued. -/
def fileFetch (url : String) (typ : String)
    (net : String → FetchResponse) : List String × Except String (List Nat) :=
  if typ != "buffer" && typ != "json" then
    ([], .error ("Unknown conversion type at fileFetch"))
  else
    let res := net url
    ([url], if !res.ok then .error (fetchFailMsg url res) else .ok res.body)

/-- `i.toLocaleString("en-US", minimumIntegerDigits 2, useGrouping false)`:
decimal with a minimum width of two digits and no grouping. -/
def pad2 (i : Nat) : String :=
  if i < 10 then "0" ++ toString i else toString i

/-- The URL of the i-th trie part: baseurl + "/td" + pad2 i + ".txt". -/
def tdUrl (baseurl : String) (i : Nat) : String :=
  baseurl ++ "/td" ++ pad2 i ++ ".txt"

/-- Promise.all over a list of settled fetch results: the first listed
rejection rejects the join, otherwise all payloads are collected in order. -/
def joinExcept : List (Except String (List Nat)) → Except String (List (List Nat))
  | [] => .ok []
  | .error e :: _ => .error e
  | .ok b :: rest => (joinExcept rest).map (fun bs => b :: bs)

/-- Modelled from the spec: `bufutil.concat` (commons/bufutil.js, outside the
repository slice) concatenates byte buffers in order into one contiguous
buffer. -/
def bufConcat (bs : List (List Nat)) : List Nat := bs.flatten

/-- `makeTd(baseurl, n)` of main.js: for `n ≤ -1` a single fetch of
baseurl + "/td.txt"; otherwise the parts `td00.txt … td{n}.txt` are all
fetched (the promises are created before the join, so every request is
issued) and concatenated in ascending index order. -/
def makeTd (baseurl : String) (n : Int)
    (net : String → FetchResponse) : List String × Except String (List Nat) :=
  if n ≤ -1 then
    fileFetch (baseurl ++ "/td.txt") ("buffer") net
  else
    let fetches := (List.range (n.toNat + 1)).map
      (fun i => fileFetch (tdUrl baseurl i) ("buffer") net)
    let reqs := fetches.foldr (fun r acc => r.1 ++ acc) []
    let result : Except String (List Nat) :=
      match joinExcept (fetches.map (fun r => r.2)) with
      | .ok tds => .ok (bufConcat tds)
      | .error e => .error e
    (reqs, result)

/-- The `blocklistBasicConfig` record built in `downloadBuildBlocklist`. -/
structure BasicConfig where
  nodecount : Int
  tdparts : Int
deriving DecidableEq, Repr

/-- JS logical-or on integer operands, as in `tdParts || -1`: zero is falsy. -/
def jsOrInt (x d : Int) : Int := if x = 0 then d else x

/-- The value produced by the external builder `createBlocklistFilter`:
a trie-tags part and a frozen-trie part, opaque to this module. -/
structure TrieOut where
  t : Nat
  ft : Nat
deriving DecidableEq, Repr

/-- The record returned by `downloadBuildBlocklist`. -/
structure BlResp where
  t : Nat
  ft : Nat
  blocklistBasicConfig : BasicConfig
  blocklistFileTag : List Nat
deriving DecidableEq, Repr

/-- `downloadBuildBlocklist` of main.js: computes the base URL and the basic
config (zero counts coerced to -1 through JS falsiness), issues the three
legs (filetag.json, trie parts, rd.txt) — all created before the join — and
on full success hands the artifacts to the external builder `cbf`
(`createBlocklistFilter`, which may itself fail). -/
def downloadBuildBlocklist (blocklistUrl latestTimestamp : String)
    (tdNodecount tdParts : Int) (net : String → FetchResponse)
    (cbf : List Nat → List Nat → List Nat → BasicConfig → Except String TrieOut) :
    List String × Except String BlResp :=
  let baseurl := blocklistUrl ++ latestTimestamp
  let blocklistBasicConfig : BasicConfig :=
    { nodecount := jsOrInt tdNodecount (-1), tdparts := jsOrInt tdParts (-1) }
  let buf0 := fileFetch (baseurl ++ "/filetag.json") ("json") net
  let buf1 := makeTd baseurl blocklistBasicConfig.tdparts net
  let buf2 := fileFetch (baseurl ++ "/rd.txt") ("buffer") net
  let reqs := buf0.1 ++ buf1.1 ++ buf2.1
  let result : Except String BlResp :=
    match buf0.2, buf1.2, buf2.2 with
    | .ok ftj, .ok td, .ok rd =>
      match cbf td rd ftj blocklistBasicConfig with
      | .ok trie =>
        .ok { t := trie.t, ft := trie.ft,
              blocklistBasicConfig := blocklistBasicConfig,
              blocklistFileTag := ftj }
      | .error e => .error e
    | .error e, _, _ => .error e
    | _, .error e, _ => .error e
    | _, _, .error e => .error e
  (reqs, result)

/-- Modelled from the spec: the Filter Repository's shared `BlocklistFilter`
instance (blocklistFilter.js, outside the repository slice) — four fields, all
unset (null) until `loadFilter` is called; readiness is the truthiness of `t`. -/
structure BlocklistFilter where
  t : Option Nat
  ft : Option Nat
  basicConfig : Option BasicConfig
  fileTag : Option (List Nat)
deriving DecidableEq, Repr

/-- Modelled from the spec: the `loadFilter(trie, frozenTrie, basicConfig,
fileTags)` mutator sets the four fields of the shared filter. -/
def BlocklistFilter.loadFilter (_f : BlocklistFilter) (t fro : Nat)
    (config : BasicConfig) (fileTag : List Nat) : BlocklistFilter :=
  { t := some t, ft := some fro, basicConfig := some config, fileTag := some fileTag }

/-- `new BlocklistFilter()`: constructed but not loaded. -/
def newBlocklistFilter : BlocklistFilter :=
  { t := none, ft := none, basicConfig := none, fileTag := none }

/-- The mutable fields of a `BlocklistWrapper` instance (main.js constructor);
the raw `td`/`rd`/`ft` caches are omitted: nothing in this module reads them
back. -/
structure WrapperState where
  blocklistFilter : BlocklistFilter
  startTime : Int
  isBlocklistUnderConstruction : Bool
  exceptionFrom : String
  exceptionStack : String
deriving DecidableEq, Repr

/-- The constructor state of `BlocklistWrapper`. -/
def initialWrapperState : WrapperState :=
  { blocklistFilter := newBlocklistFilter, startTime := 0,
    isBlocklistUnderConstruction := false, exceptionFrom := "", exceptionStack := "" }

/-- `isBlocklistFilterSetup`: `!util.emptyObj(this.blocklistFilter) &&
this.blocklistFilter.t` — the filter object always exists once constructed, so
readiness is the truthiness of its `t` field. -/
def isBlocklistFilterSetup (s : WrapperState) : Bool :=
  s.blocklistFilter.t.isSome

/-- The uniform response envelope; `data` holds the optional
`data.blocklistFilter` field. -/
structure Response where
  isException : Bool
  exceptionStack : String
  exceptionFrom : String
  data : Option BlocklistFilter
deriving DecidableEq, Repr

/-- Modelled from the spec: `util.emptyResponse()` (commons/util.js, outside
the repository slice) — the envelope in its success-default shape. -/
def emptyResponse : Response :=
  { isException := false, exceptionStack := "", exceptionFrom := "", data := none }

/-- Modelled from the spec: `util.errResponse(origin, e)` (commons/util.js,
outside the repository slice) — the envelope tagged with the failing stage
name and the failure's diagnostic message. -/
def errResponse (origin : String) (e : String) : Response :=
  { isException := true, exceptionStack := e, exceptionFrom := origin, data := none }

/-- `initBlocklistConstruction` of main.js: marks the build in progress with
`when` as its start time, runs `downloadBuildBlocklist`, loads the shared
filter on success, records the failure fields on error, then clears the
in-progress flag.  Returns (response, new state, requests issued). -/
def initBlocklistConstruction (s : WrapperState) (when : Int)
    (blocklistUrl latestTimestamp : String) (tdNodecount tdParts : Int)
    (net : String → FetchResponse)
    (cbf : List Nat → List Nat → List Nat → BasicConfig → Except String TrieOut) :
    Response × WrapperState × List String :=
  let s1 := { s with isBlocklistUnderConstruction := true, startTime := when }
  let dl := downloadBuildBlocklist blocklistUrl latestTimestamp tdNodecount tdParts net cbf
  match dl.2 with
  | .ok bl =>
    let f := s1.blocklistFilter.loadFilter bl.t bl.ft bl.blocklistBasicConfig bl.blocklistFileTag
    let s2 := { s1 with blocklistFilter := f }
    let response := { emptyResponse with data := some s2.blocklistFilter }
    (response, { s2 with isBlocklistUnderConstruction := false }, dl.1)
  | .error e =>
    let response := errResponse ("initBlocklistConstruction") e
    let s2 := { s1 with
                  exceptionFrom := response.exceptionFrom,
                  exceptionStack := response.exceptionStack,
                  isBlocklistUnderConstruction := false }
    (response, s2, dl.1)

/-- Outcome of the waiter's polling loop: the filter was observed ready at a
total wait of `total`, or the budget was exhausted with `total` accumulated. -/
inductive WaitOutcome where
  | readyAt (total : Nat)
  | timedOut (total : Nat)
deriving DecidableEq, Repr

/-- The waiter's `while (totalWaitms < fetchTimeout)` loop of `RethinkModule`:
readiness is observed at the current accumulated wait, then 50 time units are
slept and accumulated.  `obs t` is the readiness of the shared filter as
observed at total wait `t`.  Returns the list of poll instants together with
the outcome. -/
def waitPoll (obs : Nat → Bool) (fetchTimeout : Nat) (total : Nat) :
    List Nat × WaitOutcome :=
  if total < fetchTimeout then
    if obs total then ([total], .readyAt total)
    else
      let r := waitPoll obs fetchTimeout (total + 50)
      (total :: r.1, r.2)
  else ([], .timedOut total)
termination_by fetchTimeout - total
decreasing_by omega

/-- The waiter path of `RethinkModule`: poll until ready or the budget is
exhausted; on timeout build the exception envelope, preferring the recorded
builder failure (`this.exceptionStack || "blocklist-filter timeout " +
totalWaitms`, JS falsiness of the empty string) over the synthetic message.
`filterNow`, `excStack`, `excFrom` are the shared fields as read when the loop
finishes. -/
def waiterResponse (obs : Nat → Bool) (fetchTimeout : Nat)
    (filterNow : BlocklistFilter) (excStack excFrom : String) : Response :=
  match (waitPoll obs fetchTimeout 0).2 with
  | .readyAt _ => { emptyResponse with data := some filterNow }
  | .timedOut total =>
    { emptyResponse with
        isException := true,
        exceptionStack :=
          if excStack = "" then "blocklist-filter timeout " ++ toString total
          else excStack,
        exceptionFrom := if excFrom = "" then "blocklistWrapper.js" else excFrom }

/-- The parameter record passed to `RethinkModule`. -/
structure Param where
  blocklistUrl : String
  latestTimestamp : String
  workerTimeout : Int
  tdParts : Int
  tdNodecount : Int
  fetchTimeout : Int
deriving DecidableEq, Repr

/-- Result of one `RethinkModule` call: the envelope, the wrapper state after
the call, and the fetch requests issued during the call. -/
structure AcquireResult where
  response : Response
  state : WrapperState
  requests : List String
deriving DecidableEq, Repr

/-- `RethinkModule(param)` of main.js, the `acquire` operation, embedded as a
single atomic call: if the filter is set up it is returned at once; else the
caller becomes the builder when no build is in progress or the in-progress
build is stale (`now - startTime > workerTimeout * 2`); else it becomes a
waiter polling the (unchanging, in a single atomic call) readiness of this
wrapper's own state. -/
def RethinkModule (s : WrapperState) (p : Param) (now : Int)
    (net : String → FetchResponse)
    (cbf : List Nat → List Nat → List Nat → BasicConfig → Except String TrieOut) :
    AcquireResult :=
  if isBlocklistFilterSetup s then
    { response := { emptyResponse with data := some s.blocklistFilter },
      state := s, requests := [] }
  else if !s.isBlocklistUnderConstruction
      || decide (now - s.startTime > p.workerTimeout * 2) then
    let r := initBlocklistConstruction s now p.blocklistUrl p.latestTimestamp
      p.tdNodecount p.tdParts net cbf
    { response := r.1, state := r.2.1, requests := r.2.2 }
  else
    { response := waiterResponse (fun _ => isBlocklistFilterSetup s)
        p.fetchTimeout.toNat s.blocklistFilter s.exceptionStack s.exceptionFrom,
      state := s, requests := [] }

/-- The spec's abstract `BuildState`. -/
inductive BuildState where
  | Idle
  | Building
  | Ready
deriving DecidableEq, Repr

/-- The abstract build state of a wrapper state: `Ready` when the filter is
set up, else `Building` when a build is recorded in progress, else `Idle`. -/
def buildStateOf (s : WrapperState) : BuildState :=
  if isBlocklistFilterSetup s then .Ready
  else if s.isBlocklistUnderConstruction then .Building
  else .Idle

/-- The sequence of wrapper states visited by one `RethinkModule` call: the
ready and waiter paths leave the state untouched; the builder path passes
through the state with the in-progress flag raised and `now` recorded
(lines 123-124 of main.js) before reaching its final state. -/
def RethinkModuleStates (s : WrapperState) (p : Param) (now : Int)
    (net : String → FetchResponse)
    (cbf : List Nat → List Nat → List Nat → BasicConfig → Except String TrieOut) :
    List WrapperState :=
  if isBlocklistFilterSetup s then [s]
  else if !s.isBlocklistUnderConstruction
      || decide (now - s.startTime > p.workerTimeout * 2) then
    [s, { s with isBlocklistUnderConstruction := true, startTime := now },
     (initBlocklistConstruction s now p.blocklistUrl p.latestTimestamp
       p.tdNodecount p.tdParts net cbf).2.1]
  else [s]

/-- The transition relation the spec allows on `BuildState`: stays, plus
Idle → Building, Building → Ready and Building → Idle. -/
def allowedStep (a b : BuildState) : Bool :=
  a == b
  || (a == .Idle && b == .Building)
  || (a == .Building && b == .Ready)
  || (a == .Building && b == .Idle)

/-! ### Concrete fixtures used by witness theorems -/

/-- A network where every fetch succeeds with the same small payload. -/
def netAllOk : String → FetchResponse :=
  fun _ => { ok := true, status := 200, body := [1, 2] }

/-- A network where every fetch fails with status 500. -/
def netAllBad : String → FetchResponse :=
  fun _ => { ok := false, status := 500, body := [] }

/-- A builder that always succeeds with fixed opaque parts. -/
def cbfConst : List Nat → List Nat → List Nat → BasicConfig → Except String TrieOut :=
  fun _ _ _ _ => .ok { t := 7, ft := 8 }

/-- A concrete request parameter record. -/
def paramW : Param :=
  { blocklistUrl := "u", latestTimestamp := "t", workerTimeout := 10,
    tdParts := 2, tdNodecount := 5, fetchTimeout := 120 }

/-- The filter produced by a successful build under `netAllOk`/`cbfConst`. -/
def loadedFilterW : BlocklistFilter :=
  { t := some 7, ft := some 8, basicConfig := some { nodecount := 5, tdparts := 2 },
    fileTag := some [1, 2] }

/-- A wrapper state whose filter is ready. -/
def readyStateW : WrapperState :=
  { initialWrapperState with blocklistFilter := loadedFilterW }

/-- A wrapper state recording a build started at time 100. -/
def staleStateW : WrapperState :=
  { initialWrapperState with isBlocklistUnderConstruction := true, startTime := 100 }

/-- A wrapper state carrying previously recorded failure fields. -/
def excStateW : WrapperState :=
  { initialWrapperState with exceptionFrom := "prevF", exceptionStack := "prevS" }

/-! ### Helper lemmas on the fetch layer -/

theorem fileFetch_buffer_requests (url : String) (net : String → FetchResponse) :
    (fileFetch url ("buffer") net).1 = [url] := by
  simp [fileFetch]

theorem fileFetch_json_requests (url : String) (net : String → FetchResponse) :
    (fileFetch url ("json") net).1 = [url] := by
  simp [fileFetch]

theorem fileFetch_buffer_ok (url : String) (net : String → FetchResponse)
    (h : (net url).ok = true) :
    (fileFetch url ("buffer") net).2 = .ok (net url).body := by
  simp [fileFetch, h]

theorem foldr_fileFetch_requests (baseurl : String) (net : String → FetchResponse)
    (l : List Nat) :
    ((l.map (fun i => fileFetch (tdUrl baseurl i) ("buffer") net)).foldr
      (fun r acc => r.1 ++ acc) []) = l.map (tdUrl baseurl) := by
  induction l with
  | nil => rfl
  | cons x xs ih => simp [fileFetch_buffer_requests, ih]

theorem joinExcept_fileFetch_ok (baseurl : String) (net : String → FetchResponse)
    (l : List Nat) (h : ∀ i ∈ l, (net (tdUrl baseurl i)).ok = true) :
    joinExcept ((l.map (fun i => fileFetch (tdUrl baseurl i) ("buffer") net)).map
      (fun r => r.2)) = .ok (l.map (fun i => (net (tdUrl baseurl i)).body)) := by
  induction l with
  | nil => rfl
  | cons x xs ih =>
    have hx : (net (tdUrl baseurl x)).ok = true := h x (List.mem_cons_self x xs)
    have ihh := ih (fun i hi => h i (List.mem_cons_of_mem _ hi))
    simp only [List.map_map] at ihh
    simp [joinExcept, fileFetch_buffer_ok _ _ hx, ihh, Except.map]

/-! ### Claims about the Asset Fetcher and Part Assembler -/

/-- C7: for tdParts = -1, the trie assembly issues exactly one fetch, to
baseUrl + "/td.txt" as raw bytes, and returns that payload unmodified as the
trie body. -/
theorem makeTd_single_artifact (baseurl : String) (net : String → FetchResponse)
    (hok : (net (baseurl ++ "/td.txt")).ok = true) :
    (makeTd baseurl (-1) net).1 = [baseurl ++ "/td.txt"] ∧
    (makeTd baseurl (-1) net).2 = .ok ((net (baseurl ++ "/td.txt")).body) := by
  constructor
  · simp [makeTd, fileFetch]
  · simp [makeTd, fileFetch, hok]

/-- C7 witness. -/
theorem makeTd_single_artifact_witness :
    (makeTd "B" (-1) (fun _ => { ok := true, status := 200, body := [1, 2] })).1
      = ["B" ++ "/td.txt"] ∧
    (makeTd "B" (-1) (fun _ => { ok := true, status := 200, body := [1, 2] })).2
      = .ok (FetchResponse.body { ok := true, status := 200, body := [1, 2] }) :=
  makeTd_single_artifact "B" (fun _ => { ok := true, status := 200, body := [1, 2] })
    (by decide)

/-- C9: a fetch of a named resource that yields a non-success transport
response fails by raising an error whose diagnostic message contains both the
failing URL and the response's status. -/
theorem fileFetch_transport_failure (url typ : String) (net : String → FetchResponse)
    (hty : typ = "buffer" ∨ typ = "json") (hok : (net url).ok = false) :
    (fileFetch url typ net).1 = [url] ∧
    (fileFetch url typ net).2 = .error (fetchFailMsg url (net url)) ∧
    (∃ a b : String, fetchFailMsg url (net url) = a ++ url ++ b) ∧
    (∃ c d : String,
      fetchFailMsg url (net url) = c ++ toString (net url).status ++ d) := by
  refine ⟨?_, ?_, ?_, ?_⟩
  · rcases hty with h | h <;> subst h <;> simp [fileFetch]
  · rcases hty with h | h <;> subst h <;> simp [fileFetch, hok]
  · exact ⟨"[\x22", "\x22," ++ stringifyResponse (net url) ++ ",\x22fileFetch fail\x22]",
      by simp only [fetchFailMsg, stringifyResponse, String.append_assoc]⟩
  · exact ⟨"[\x22" ++ url ++ "\x22," ++ "\x7b\x22status\x22:",
      "\x7d" ++ ",\x22fileFetch fail\x22]",
      by simp only [fetchFailMsg, stringifyResponse, String.append_assoc]⟩

/-- C9 witness. -/
theorem fileFetch_transport_failure_witness :
    (fileFetch "X" "buffer" (fun _ => { ok := false, status := 500, body := [] })).1
      = ["X"] ∧
    (fileFetch "X" "buffer" (fun _ => { ok := false, status := 500, body := [] })).2
      = .error (fetchFailMsg "X" { ok := false, status := 500, body := [] }) ∧
    (∃ a b : String,
      fetchFailMsg "X" { ok := false, status := 500, body := [] } = a ++ "X" ++ b) ∧
    (∃ c d : String,
      fetchFailMsg "X" { ok := false, status := 500, body := [] }
        = c ++ toString (FetchResponse.status { ok := false, status := 500, body := [] }) ++ d) :=
  fileFetch_transport_failure "X" "buffer"
    (fun _ => { ok := false, status := 500, body := [] }) (Or.inl rfl) (by decide)

/-- C2: for tdParts = n ≥ 0, the trie assembly fetches exactly n+1 resources
at baseUrl + "/td" + (index padded to minimum width 2, no grouping) + ".txt"
for indices 0..n, and on success the assembled trie body is the concatenation
of the fetched payloads in ascending index order. -/
theorem makeTd_multipart (baseurl : String) (n : Int) (net : String → FetchResponse)
    (hn : 0 ≤ n)
    (hok : ∀ i < n.toNat + 1, (net (tdUrl baseurl i)).ok = true) :
    (makeTd baseurl n net).1 = (List.range (n.toNat + 1)).map (tdUrl baseurl) ∧
    (makeTd baseurl n net).1.length = n.toNat + 1 ∧
    (makeTd baseurl n net).2 =
      .ok (bufConcat ((List.range (n.toNat + 1)).map
        (fun i => (net (tdUrl baseurl i)).body))) ∧
    (∀ i, i < 10 → pad2 i = "0" ++ toString i) ∧
    (∀ i, 10 ≤ i → pad2 i = toString i) := by
  have hneg : ¬ (n ≤ -1) := by omega
  have hreq : (makeTd baseurl n net).1 = (List.range (n.toNat + 1)).map (tdUrl baseurl) := by
    simp [makeTd, hneg, foldr_fileFetch_requests]
  refine ⟨hreq, ?_, ?_, ?_, ?_⟩
  · rw [hreq]; simp
  · have hj := joinExcept_fileFetch_ok baseurl net (List.range (n.toNat + 1))
      (fun i hi => hok i (List.mem_range.mp hi))
    simp only [List.map_map] at hj
    simp [makeTd, hneg, hj]
  · intro i hi; simp [pad2, hi]
  · intro i hi; simp [pad2]; omega

/-- C2 witness. -/
theorem makeTd_multipart_witness :
    (makeTd "B" 2 (fun _ => { ok := true, status := 200, body := [1, 2] })).1
      = (List.range ((2 : Int).toNat + 1)).map (tdUrl "B") ∧
    (makeTd "B" 2 (fun _ => { ok := true, status := 200, body := [1, 2] })).1.length
      = (2 : Int).toNat + 1 ∧
    (makeTd "B" 2 (fun _ => { ok := true, status := 200, body := [1, 2] })).2
      = .ok (bufConcat ((List.range ((2 : Int).toNat + 1)).map
          (fun i => (FetchResponse.body { ok := true, status := 200, body := [1, 2] })))) ∧
    (∀ i, i < 10 → pad2 i = "0" ++ toString i) ∧
    (∀ i, 10 ≤ i → pad2 i = toString i) :=
  makeTd_multipart "B" 2 (fun _ => { ok := true, status := 200, body := [1, 2] })
    (by decide) (by decide)

/-- C8: for tdParts = 0, the build coerces the part count through JS falsiness
(tdParts || -1): the BasicConfig handed on records tdparts = -1 and the trie is
fetched as the single unsplit /td.txt rather than as one part /td00.txt;
likewise a zero node count is recorded as nodecount = -1. -/
theorem tdParts_zero_coerced (blocklistUrl latestTimestamp : String)
    (tdNodecount : Int) (net : String → FetchResponse)
    (cbf : List Nat → List Nat → List Nat → BasicConfig → Except String TrieOut) :
    (downloadBuildBlocklist blocklistUrl latestTimestamp tdNodecount 0 net cbf).1 =
      [blocklistUrl ++ latestTimestamp ++ "/filetag.json",
       blocklistUrl ++ latestTimestamp ++ "/td.txt",
       blocklistUrl ++ latestTimestamp ++ "/rd.txt"] ∧
    (∀ bl, (downloadBuildBlocklist blocklistUrl latestTimestamp
        tdNodecount 0 net cbf).2 = .ok bl →
      bl.blocklistBasicConfig.tdparts = -1 ∧
      bl.blocklistBasicConfig.nodecount = jsOrInt tdNodecount (-1)) ∧
    jsOrInt 0 (-1) = -1 := by
  have h0 : jsOrInt 0 (-1) = -1 := by simp [jsOrInt]
  refine ⟨?_, ?_, h0⟩
  · simp [downloadBuildBlocklist, h0, makeTd, fileFetch_json_requests,
      fileFetch_buffer_requests, fileFetch]
  · intro bl h
    simp only [downloadBuildBlocklist, h0] at h
    split at h
    · split at h
      · rw [Except.ok.injEq] at h
        subst h
        exact ⟨rfl, rfl⟩
      · cases h
    · cases h
    · cases h
    · cases h

/-- C8 witness. -/
theorem tdParts_zero_coerced_witness :
    (downloadBuildBlocklist "u" "t" 0 0
        (fun _ => { ok := true, status := 200, body := [1, 2] })
        (fun _ _ _ _ => .ok { t := 7, ft := 8 })).1 =
      ["u" ++ "t" ++ "/filetag.json", "u" ++ "t" ++ "/td.txt", "u" ++ "t" ++ "/rd.txt"] ∧
    BasicConfig.tdparts (BlResp.blocklistBasicConfig
      { t := 7, ft := 8, blocklistBasicConfig := { nodecount := -1, tdparts := -1 },
        blocklistFileTag := [1, 2] }) = -1 ∧
    BasicConfig.nodecount (BlResp.blocklistBasicConfig
      { t := 7, ft := 8, blocklistBasicConfig := { nodecount := -1, tdparts := -1 },
        blocklistFileTag := [1, 2] }) = jsOrInt 0 (-1) :=
  ⟨(tdParts_zero_coerced "u" "t" 0
      (fun _ => { ok := true, status := 200, body := [1, 2] })
      (fun _ _ _ _ => .ok { t := 7, ft := 8 })).1,
   (tdParts_zero_coerced "u" "t" 0
      (fun _ => { ok := true, status := 200, body := [1, 2] })
      (fun _ _ _ _ => .ok { t := 7, ft := 8 })).2.1
     { t := 7, ft := 8, blocklistBasicConfig := { nodecount := -1, tdparts := -1 },
       blocklistFileTag := [1, 2] } (by rfl)⟩

/-! ### Helper lemmas on the waiter loop -/

/-- When readiness is never observed, the polling loop visits exactly the
instants total, total+50, total+100, … and times out at the first accumulated
wait reaching the budget. -/
theorem waitPoll_never_ready (obs : Nat → Bool) (h : ∀ t, obs t = false) :
    ∀ fuel ft total, ft ≤ total + fuel * 50 →
      ∃ k, waitPoll obs ft total =
          ((List.range k).map (fun j => total + 50 * j), .timedOut (total + 50 * k)) ∧
        ft ≤ total + 50 * k := by
  intro fuel
  induction fuel with
  | zero =>
    intro ft total hle
    refine ⟨0, ?_, by omega⟩
    rw [waitPoll, if_neg (by omega)]
    simp
  | succ m ih =>
    intro ft total hle
    by_cases hlt : total < ft
    · rw [waitPoll, if_pos hlt, h total]
      obtain ⟨k, hk, hfk⟩ := ih ft (total + 50) (by omega)
      refine ⟨k + 1, ?_, by omega⟩
      rw [if_neg (by simp)]
      rw [hk]
      refine Prod.ext ?_ ?_
      · show total :: (List.range k).map (fun j => total + 50 + 50 * j)
          = (List.range (k + 1)).map (fun j => total + 50 * j)
        rw [List.range_succ_eq_map, List.map_cons, List.map_map]
        refine congrArg₂ _ (by omega) ?_
        refine List.map_congr_left ?_
        intro a _
        simp [Function.comp]
        omega
      · show WaitOutcome.timedOut (total + 50 + 50 * k)
          = WaitOutcome.timedOut (total + 50 * (k + 1))
        refine congrArg _ (by omega)
    · rw [waitPoll, if_neg hlt]
      exact ⟨0, by simp, by omega⟩

/-! ### Claims about the Coordinator's waiter contract -/

/-- C3: a waiter that never observes readiness within its budget polls at a
fixed 50-unit interval, accumulates a total wait of at least fetchTimeout, and
returns an exception envelope whose stack reports the elapsed wait — unless a
builder failure was recorded meanwhile, in which case that failure's origin
and stack are returned instead. -/
theorem waiter_timeout_envelope (obs : Nat → Bool) (ft : Nat)
    (filterNow : BlocklistFilter) (excStack excFrom : String)
    (h : ∀ t, obs t = false) :
    ∃ k, waitPoll obs ft 0 =
        ((List.range k).map (fun j => 50 * j), .timedOut (50 * k)) ∧
      ft ≤ 50 * k ∧
      (waiterResponse obs ft filterNow excStack excFrom).isException = true ∧
      (waiterResponse obs ft filterNow excStack excFrom).data = none ∧
      (waiterResponse obs ft filterNow excStack excFrom).exceptionStack =
        (if excStack = "" then "blocklist-filter timeout " ++ toString (50 * k)
         else excStack) ∧
      (waiterResponse obs ft filterNow excStack excFrom).exceptionFrom =
        (if excFrom = "" then "blocklistWrapper.js" else excFrom) := by
  obtain ⟨k, hk, hle⟩ := waitPoll_never_ready obs h ft ft 0 (by omega)
  simp only [Nat.zero_add] at hk hle
  refine ⟨k, hk, hle, ?_, ?_, ?_, ?_⟩ <;>
    simp [waiterResponse, hk, emptyResponse]

/-- C3 witness. -/
theorem waiter_timeout_envelope_witness :
    ∃ k, waitPoll (fun _ => false) 120 0 =
        ((List.range k).map (fun j => 50 * j), .timedOut (50 * k)) ∧
      120 ≤ 50 * k ∧
      (waiterResponse (fun _ => false) 120 newBlocklistFilter "" "").isException = true ∧
      (waiterResponse (fun _ => false) 120 newBlocklistFilter "" "").data = none ∧
      (waiterResponse (fun _ => false) 120 newBlocklistFilter "" "").exceptionStack =
        (if ("" : String) = "" then "blocklist-filter timeout " ++ toString (50 * k)
         else "") ∧
      (waiterResponse (fun _ => false) 120 newBlocklistFilter "" "").exceptionFrom =
        (if ("" : String) = "" then "blocklistWrapper.js" else "") :=
  waiter_timeout_envelope (fun _ => false) 120 newBlocklistFilter "" "" (fun _ => rfl)

/-! ### Claims about the Coordinator state machine -/

/-- C1: after an acquire call has returned a ready filter (a non-exception
envelope with data.blocklistFilter set), every subsequent acquire call — any
parameters, network, builder or time — returns immediately a non-exception
envelope carrying the very same shared filter instance, issues no fetches,
and leaves the state unchanged. -/
theorem acquire_idempotent_once_ready (s : WrapperState) (p p2 : Param)
    (now now2 : Int) (net net2 : String → FetchResponse)
    (cbf cbf2 : List Nat → List Nat → List Nat → BasicConfig → Except String TrieOut)
    (f : BlocklistFilter)
    (h1 : (RethinkModule s p now net cbf).response.isException = false)
    (h2 : (RethinkModule s p now net cbf).response.data = some f) :
    (RethinkModule s p now net cbf).state.blocklistFilter = f ∧
    RethinkModule (RethinkModule s p now net cbf).state p2 now2 net2 cbf2 =
      { response := { isException := false, exceptionStack := "",
                      exceptionFrom := "", data := some f },
        state := (RethinkModule s p now net cbf).state,
        requests := [] } := by
  have key : (RethinkModule s p now net cbf).state.blocklistFilter = f ∧
      isBlocklistFilterSetup (RethinkModule s p now net cbf).state = true := by
    by_cases hs : isBlocklistFilterSetup s
    · have hstate : (RethinkModule s p now net cbf).state = s := by
        simp [RethinkModule, hs]
      have hdata : (RethinkModule s p now net cbf).response.data
          = some s.blocklistFilter := by
        simp [RethinkModule, hs]
      rw [hdata] at h2
      have hf : s.blocklistFilter = f := Option.some.inj h2
      exact ⟨by rw [hstate]; exact hf, by rw [hstate]; exact hs⟩
    · have hs' : isBlocklistFilterSetup s = false := by
        simpa using hs
      by_cases hc : (!s.isBlocklistUnderConstruction
          || decide (now - s.startTime > p.workerTimeout * 2)) = true
      · cases hdl : (downloadBuildBlocklist p.blocklistUrl p.latestTimestamp
            p.tdNodecount p.tdParts net cbf).2 with
        | error e =>
          exfalso
          simp [RethinkModule, hs', hc, initBlocklistConstruction, hdl,
            errResponse] at h1
        | ok bl =>
          have hresp : (RethinkModule s p now net cbf).response.data
              = some { t := some bl.t, ft := some bl.ft,
                       basicConfig := some bl.blocklistBasicConfig,
                       fileTag := some bl.blocklistFileTag } := by
            simp [RethinkModule, hs', hc, initBlocklistConstruction, hdl,
              BlocklistFilter.loadFilter, emptyResponse]
          have hstate : (RethinkModule s p now net cbf).state.blocklistFilter
              = { t := some bl.t, ft := some bl.ft,
                  basicConfig := some bl.blocklistBasicConfig,
                  fileTag := some bl.blocklistFileTag } := by
            simp [RethinkModule, hs', hc, initBlocklistConstruction, hdl,
              BlocklistFilter.loadFilter]
          rw [hresp] at h2
          have hf := Option.some.inj h2
          refine ⟨by rw [hstate]; exact hf, ?_⟩
          simp [isBlocklistFilterSetup, hstate]
      · exfalso
        obtain ⟨k, hk, _⟩ := waitPoll_never_ready (fun _ => false) (fun _ => rfl)
          p.fetchTimeout.toNat p.fetchTimeout.toNat 0 (by omega)
        have hexc : (RethinkModule s p now net cbf).response.isException = true := by
          simp [RethinkModule, hs', hc, waiterResponse, hk, emptyResponse]
        rw [hexc] at h1
        simp at h1
  obtain ⟨k1, k2⟩ := key
  refine ⟨k1, ?_⟩
  generalize hst : (RethinkModule s p now net cbf).state = st at k1 k2 ⊢
  simp [RethinkModule, k2, k1, emptyResponse]

/-- C1 witness. -/
theorem acquire_idempotent_once_ready_witness :
    (RethinkModule initialWrapperState paramW 1000 netAllOk cbfConst).state.blocklistFilter
      = loadedFilterW ∧
    RethinkModule (RethinkModule initialWrapperState paramW 1000 netAllOk cbfConst).state
        paramW 2000 netAllBad cbfConst =
      { response := { isException := false, exceptionStack := "",
                      exceptionFrom := "", data := some loadedFilterW },
        state := (RethinkModule initialWrapperState paramW 1000 netAllOk cbfConst).state,
        requests := [] } :=
  acquire_idempotent_once_ready initialWrapperState paramW paramW 1000 2000 netAllOk
    netAllBad cbfConst cbfConst loadedFilterW (by decide) (by decide)

/-- C4: a caller that finds the filter not ready and either no build in
progress or a stale one (recorded as running longer than 2 × workerTimeout)
becomes the builder: the call runs the full fetch-and-construct sequence
rather than waiting, transitioning through the Building state with the
current time recorded as the new start time. -/
theorem stale_or_idle_becomes_builder (s : WrapperState) (p : Param) (now : Int)
    (net : String → FetchResponse)
    (cbf : List Nat → List Nat → List Nat → BasicConfig → Except String TrieOut)
    (hns : isBlocklistFilterSetup s = false)
    (hcond : s.isBlocklistUnderConstruction = false ∨
      now - s.startTime > p.workerTimeout * 2) :
    RethinkModule s p now net cbf =
      { response := (initBlocklistConstruction s now p.blocklistUrl p.latestTimestamp
          p.tdNodecount p.tdParts net cbf).1,
        state := (initBlocklistConstruction s now p.blocklistUrl p.latestTimestamp
          p.tdNodecount p.tdParts net cbf).2.1,
        requests := (initBlocklistConstruction s now p.blocklistUrl p.latestTimestamp
          p.tdNodecount p.tdParts net cbf).2.2 } ∧
    RethinkModuleStates s p now net cbf =
      [s, { s with isBlocklistUnderConstruction := true, startTime := now },
       (initBlocklistConstruction s now p.blocklistUrl p.latestTimestamp
         p.tdNodecount p.tdParts net cbf).2.1] ∧
    (RethinkModule s p now net cbf).state.startTime = now ∧
    (RethinkModule s p now net cbf).state.isBlocklistUnderConstruction = false ∧
    (RethinkModule s p now net cbf).requests =
      (downloadBuildBlocklist p.blocklistUrl p.latestTimestamp p.tdNodecount
        p.tdParts net cbf).1 := by
  have hb : (!s.isBlocklistUnderConstruction
      || decide (now - s.startTime > p.workerTimeout * 2)) = true := by
    rcases hcond with h | h
    · simp [h]
    · simp [h]
  have hR : RethinkModule s p now net cbf =
      { response := (initBlocklistConstruction s now p.blocklistUrl p.latestTimestamp
          p.tdNodecount p.tdParts net cbf).1,
        state := (initBlocklistConstruction s now p.blocklistUrl p.latestTimestamp
          p.tdNodecount p.tdParts net cbf).2.1,
        requests := (initBlocklistConstruction s now p.blocklistUrl p.latestTimestamp
          p.tdNodecount p.tdParts net cbf).2.2 } := by
    simp [RethinkModule, hns, hb]
  have hT : RethinkModuleStates s p now net cbf =
      [s, { s with isBlocklistUnderConstruction := true, startTime := now },
       (initBlocklistConstruction s now p.blocklistUrl p.latestTimestamp
         p.tdNodecount p.tdParts net cbf).2.1] := by
    simp [RethinkModuleStates, hns, hb]
  refine ⟨hR, hT, ?_, ?_, ?_⟩ <;> rw [hR] <;>
    cases hdl : (downloadBuildBlocklist p.blocklistUrl p.latestTimestamp p.tdNodecount
      p.tdParts net cbf).2 <;>
    simp [initBlocklistConstruction, hdl]

/-- C4 witness: against a builder recorded as started at time 100 with
workerTimeout 10, a call at time 121 = 100 + 2·10 + 1 starts a fresh build. -/
theorem stale_or_idle_becomes_builder_witness :
    RethinkModule staleStateW paramW 121 netAllOk cbfConst =
      { response := (initBlocklistConstruction staleStateW 121 paramW.blocklistUrl
          paramW.latestTimestamp paramW.tdNodecount paramW.tdParts netAllOk cbfConst).1,
        state := (initBlocklistConstruction staleStateW 121 paramW.blocklistUrl
          paramW.latestTimestamp paramW.tdNodecount paramW.tdParts netAllOk cbfConst).2.1,
        requests := (initBlocklistConstruction staleStateW 121 paramW.blocklistUrl
          paramW.latestTimestamp paramW.tdNodecount paramW.tdParts netAllOk cbfConst).2.2 } ∧
    RethinkModuleStates staleStateW paramW 121 netAllOk cbfConst =
      [staleStateW,
       { staleStateW with isBlocklistUnderConstruction := true, startTime := 121 },
       (initBlocklistConstruction staleStateW 121 paramW.blocklistUrl
         paramW.latestTimestamp paramW.tdNodecount paramW.tdParts netAllOk cbfConst).2.1] ∧
    (RethinkModule staleStateW paramW 121 netAllOk cbfConst).state.startTime = 121 ∧
    (RethinkModule staleStateW paramW 121 netAllOk
      cbfConst).state.isBlocklistUnderConstruction = false ∧
    (RethinkModule staleStateW paramW 121 netAllOk cbfConst).requests =
      (downloadBuildBlocklist paramW.blocklistUrl paramW.latestTimestamp
        paramW.tdNodecount paramW.tdParts netAllOk cbfConst).1 :=
  stale_or_idle_becomes_builder staleStateW paramW 121 netAllOk cbfConst (by decide)
    (Or.inr (by decide))

/-- C5: a build failure of any stage never escapes: the call returns the
uniform envelope with isException true, the failing stage as origin, the
diagnostic as stack and no filter in data; afterwards the under-construction
flag is cleared and the filter is not loaded, so the state is Idle again. -/
theorem build_failure_uniform_envelope (s : WrapperState) (p : Param) (now : Int)
    (net : String → FetchResponse)
    (cbf : List Nat → List Nat → List Nat → BasicConfig → Except String TrieOut)
    (e : String)
    (hns : isBlocklistFilterSetup s = false)
    (hcond : s.isBlocklistUnderConstruction = false ∨
      now - s.startTime > p.workerTimeout * 2)
    (herr : (downloadBuildBlocklist p.blocklistUrl p.latestTimestamp p.tdNodecount
      p.tdParts net cbf).2 = .error e) :
    (RethinkModule s p now net cbf).response =
      { isException := true, exceptionStack := e,
        exceptionFrom := "initBlocklistConstruction", data := none } ∧
    (RethinkModule s p now net cbf).state.isBlocklistUnderConstruction = false ∧
    (RethinkModule s p now net cbf).state.blocklistFilter = s.blocklistFilter ∧
    buildStateOf (RethinkModule s p now net cbf).state = .Idle := by
  have hb : (!s.isBlocklistUnderConstruction
      || decide (now - s.startTime > p.workerTimeout * 2)) = true := by
    rcases hcond with h | h
    · simp [h]
    · simp [h]
  have hts : s.blocklistFilter.t.isSome = false := by
    simpa [isBlocklistFilterSetup] using hns
  refine ⟨?_, ?_, ?_, ?_⟩ <;>
    simp [RethinkModule, hns, hb, initBlocklistConstruction, herr, errResponse,
      buildStateOf, isBlocklistFilterSetup, hts]

/-- C5 witness. -/
theorem build_failure_uniform_envelope_witness :
    (RethinkModule initialWrapperState paramW 0 netAllBad cbfConst).response =
      { isException := true,
        exceptionStack := fetchFailMsg ("u" ++ "t" ++ "/filetag.json")
          { ok := false, status := 500, body := [] },
        exceptionFrom := "initBlocklistConstruction", data := none } ∧
    (RethinkModule initialWrapperState paramW 0 netAllBad
      cbfConst).state.isBlocklistUnderConstruction = false ∧
    (RethinkModule initialWrapperState paramW 0 netAllBad cbfConst).state.blocklistFilter
      = initialWrapperState.blocklistFilter ∧
    buildStateOf (RethinkModule initialWrapperState paramW 0 netAllBad cbfConst).state
      = .Idle :=
  build_failure_uniform_envelope initialWrapperState paramW 0 netAllBad cbfConst
    (fetchFailMsg ("u" ++ "t" ++ "/filetag.json") { ok := false, status := 500, body := [] })
    (by decide) (Or.inl rfl) (by rfl)

/-- C6: one acquire call only ever moves the abstract build state along
Idle → Building, Building → Ready (success) or Building → Idle (failure),
never Idle → Ready directly; and once Ready the state is left untouched and
no build is ever issued again. -/
theorem buildState_transition_invariant (s : WrapperState) (p : Param) (now : Int)
    (net : String → FetchResponse)
    (cbf : List Nat → List Nat → List Nat → BasicConfig → Except String TrieOut) :
    (RethinkModuleStates s p now net cbf).head? = some s ∧
    (RethinkModuleStates s p now net cbf).getLast? =
      some (RethinkModule s p now net cbf).state ∧
    List.Chain' (fun a b => allowedStep (buildStateOf a) (buildStateOf b) = true)
      (RethinkModuleStates s p now net cbf) ∧
    (buildStateOf s = .Ready →
      RethinkModuleStates s p now net cbf = [s] ∧
      (RethinkModule s p now net cbf).state = s ∧
      (RethinkModule s p now net cbf).requests = []) := by
  by_cases hs : isBlocklistFilterSetup s
  · refine ⟨?_, ?_, ?_, fun _ => ⟨?_, ?_, ?_⟩⟩ <;>
      simp [RethinkModuleStates, RethinkModule, hs]
  · have hs' : isBlocklistFilterSetup s = false := by simpa using hs
    have hts : s.blocklistFilter.t.isSome = false := by
      simpa [isBlocklistFilterSetup] using hs'
    have hnotready : ¬ buildStateOf s = .Ready := by
      simp only [buildStateOf, hs', Bool.false_eq_true, if_false]
      split <;> simp
    by_cases hb : (!s.isBlocklistUnderConstruction
        || decide (now - s.startTime > p.workerTimeout * 2)) = true
    · have hT : RethinkModuleStates s p now net cbf =
          [s, { s with isBlocklistUnderConstruction := true, startTime := now },
           (initBlocklistConstruction s now p.blocklistUrl p.latestTimestamp
             p.tdNodecount p.tdParts net cbf).2.1] := by
        simp [RethinkModuleStates, hs', hb]
      have hR : (RethinkModule s p now net cbf).state =
          (initBlocklistConstruction s now p.blocklistUrl p.latestTimestamp
            p.tdNodecount p.tdParts net cbf).2.1 := by
        simp [RethinkModule, hs', hb]
      refine ⟨?_, ?_, ?_, fun h => absurd h hnotready⟩
      · rw [hT]; rfl
      · rw [hT, hR]; rfl
      · rw [hT]
        refine List.chain'_cons.mpr ⟨?_, List.chain'_cons.mpr ⟨?_, ?_⟩⟩
        · cases hu : s.isBlocklistUnderConstruction <;>
            simp [buildStateOf, isBlocklistFilterSetup, hts, hu, allowedStep]
        · cases hdl : (downloadBuildBlocklist p.blocklistUrl p.latestTimestamp
              p.tdNodecount p.tdParts net cbf).2 <;>
            simp [initBlocklistConstruction, hdl, buildStateOf,
              isBlocklistFilterSetup, BlocklistFilter.loadFilter, hts,
              allowedStep, errResponse]
        · exact List.chain'_singleton _
    · refine ⟨?_, ?_, ?_, fun h => absurd h hnotready⟩ <;>
        simp [RethinkModuleStates, RethinkModule, hs', hb]

/-- C6 witness: once the filter is ready the call leaves the Ready state
untouched with no requests, and its visited-state trace satisfies the
transition relation. -/
theorem buildState_transition_invariant_witness :
    (RethinkModuleStates readyStateW paramW 0 netAllOk cbfConst).head?
      = some readyStateW ∧
    (RethinkModuleStates readyStateW paramW 0 netAllOk cbfConst).getLast? =
      some (RethinkModule readyStateW paramW 0 netAllOk cbfConst).state ∧
    List.Chain' (fun a b => allowedStep (buildStateOf a) (buildStateOf b) = true)
      (RethinkModuleStates readyStateW paramW 0 netAllOk cbfConst) ∧
    (RethinkModuleStates readyStateW paramW 0 netAllOk cbfConst = [readyStateW] ∧
      (RethinkModule readyStateW paramW 0 netAllOk cbfConst).state = readyStateW ∧
      (RethinkModule readyStateW paramW 0 netAllOk cbfConst).requests = []) :=
  ⟨(buildState_transition_invariant readyStateW paramW 0 netAllOk cbfConst).1,
   (buildState_transition_invariant readyStateW paramW 0 netAllOk cbfConst).2.1,
   (buildState_transition_invariant readyStateW paramW 0 netAllOk cbfConst).2.2.1,
   (buildState_transition_invariant readyStateW paramW 0 netAllOk cbfConst).2.2.2
     (by decide)⟩

/-- C10: a successful build leaves the recorded failure fields exceptionFrom
and exceptionStack unchanged; an acquire call either preserves them or
overwrites them with a newly recorded build failure, never clearing them; and
a waiter that exhausts its budget returns the recorded failure's stack (and
its origin, defaulted when empty) in place of the synthetic timeout message,
even if that failure was recorded before the wait began. -/
theorem exception_fields_persist (s s2 : WrapperState) (when : Int)
    (url ts : String) (nc tp : Int)
    (net net2 : String → FetchResponse)
    (cbf cbf2 : List Nat → List Nat → List Nat → BasicConfig → Except String TrieOut)
    (p2 : Param) (now2 : Int) (bl : BlResp)
    (obs : Nat → Bool) (ft : Nat) (filterNow : BlocklistFilter)
    (excStack excFrom : String)
    (hok : (downloadBuildBlocklist url ts nc tp net cbf).2 = .ok bl)
    (hobs : ∀ t, obs t = false)
    (hS : excStack ≠ "") :
    (initBlocklistConstruction s when url ts nc tp net cbf).2.1.exceptionFrom
      = s.exceptionFrom ∧
    (initBlocklistConstruction s when url ts nc tp net cbf).2.1.exceptionStack
      = s.exceptionStack ∧
    (waiterResponse obs ft filterNow excStack excFrom).isException = true ∧
    (waiterResponse obs ft filterNow excStack excFrom).exceptionStack = excStack ∧
    (waiterResponse obs ft filterNow excStack excFrom).exceptionFrom
      = (if excFrom = "" then "blocklistWrapper.js" else excFrom) ∧
    (((RethinkModule s2 p2 now2 net2 cbf2).state.exceptionStack = s2.exceptionStack ∧
      (RethinkModule s2 p2 now2 net2 cbf2).state.exceptionFrom = s2.exceptionFrom) ∨
     (∃ e, (downloadBuildBlocklist p2.blocklistUrl p2.latestTimestamp p2.tdNodecount
         p2.tdParts net2 cbf2).2 = .error e ∧
       (RethinkModule s2 p2 now2 net2 cbf2).state.exceptionStack = e ∧
       (RethinkModule s2 p2 now2 net2 cbf2).state.exceptionFrom
         = "initBlocklistConstruction")) := by
  obtain ⟨k, hk, hle⟩ := waitPoll_never_ready obs hobs ft ft 0 (by omega)
  refine ⟨?_, ?_, ?_, ?_, ?_, ?_⟩
  · simp [initBlocklistConstruction, hok]
  · simp [initBlocklistConstruction, hok]
  · simp [waiterResponse, hk, emptyResponse]
  · simp [waiterResponse, hk, emptyResponse, hS]
  · simp [waiterResponse, hk, emptyResponse]
  · by_cases hs : isBlocklistFilterSetup s2
    · exact Or.inl ⟨by simp [RethinkModule, hs], by simp [RethinkModule, hs]⟩
    · have hs' : isBlocklistFilterSetup s2 = false := by simpa using hs
      by_cases hb : (!s2.isBlocklistUnderConstruction
          || decide (now2 - s2.startTime > p2.workerTimeout * 2)) = true
      · cases hdl : (downloadBuildBlocklist p2.blocklistUrl p2.latestTimestamp
            p2.tdNodecount p2.tdParts net2 cbf2).2 with
        | ok bl2 =>
          exact Or.inl
            ⟨by simp [RethinkModule, hs', hb, initBlocklistConstruction, hdl],
             by simp [RethinkModule, hs', hb, initBlocklistConstruction, hdl]⟩
        | error e =>
          exact Or.inr ⟨e, rfl,
            by simp [RethinkModule, hs', hb, initBlocklistConstruction, hdl, errResponse],
            by simp [RethinkModule, hs', hb, initBlocklistConstruction, hdl, errResponse]⟩
      · exact Or.inl ⟨by simp [RethinkModule, hs', hb], by simp [RethinkModule, hs', hb]⟩

/-- C10 witness. -/
theorem exception_fields_persist_witness :
    (initBlocklistConstruction excStateW 5 "u" "t" 5 2 netAllOk cbfConst).2.1.exceptionFrom
      = excStateW.exceptionFrom ∧
    (initBlocklistConstruction excStateW 5 "u" "t" 5 2 netAllOk cbfConst).2.1.exceptionStack
      = excStateW.exceptionStack ∧
    (waiterResponse (fun _ => false) 120 newBlocklistFilter "boom" "orig").isException
      = true ∧
    (waiterResponse (fun _ => false) 120 newBlocklistFilter "boom" "orig").exceptionStack
      = "boom" ∧
    (waiterResponse (fun _ => false) 120 newBlocklistFilter "boom" "orig").exceptionFrom
      = (if ("orig" : String) = "" then "blocklistWrapper.js" else "orig") ∧
    (((RethinkModule excStateW paramW 0 netAllOk cbfConst).state.exceptionStack
        = excStateW.exceptionStack ∧
      (RethinkModule excStateW paramW 0 netAllOk cbfConst).state.exceptionFrom
        = excStateW.exceptionFrom) ∨
     (∃ e, (downloadBuildBlocklist paramW.blocklistUrl paramW.latestTimestamp
         paramW.tdNodecount paramW.tdParts netAllOk cbfConst).2 = .error e ∧
       (RethinkModule excStateW paramW 0 netAllOk cbfConst).state.exceptionStack = e ∧
       (RethinkModule excStateW paramW 0 netAllOk cbfConst).state.exceptionFrom
         = "initBlocklistConstruction")) :=
  exception_fields_persist excStateW excStateW 5 "u" "t" 5 2 netAllOk netAllOk
    cbfConst cbfConst paramW 0
    { t := 7, ft := 8, blocklistBasicConfig := { nodecount := 5, tdparts := 2 },
      blocklistFileTag := [1, 2] }
    (fun _ => false) 120 newBlocklistFilter "boom" "orig"
    (by rfl) (fun _ => rfl) (by decide)

end ServerlessDns
